import Mathlib

/-!
Shallow embedding of `bambu_timelapse_download.py` (function `ftp_download`
and the `ImplicitFTP_TLS` connection it drives), together with proofs about
the download/skip/delete/cleanup policy of the script.

The script's interactions with the operating system and the printer's FTP
server are modelled by two oracle records (`FS` for the local filesystem,
`Server` for the remote side) whose fields give the outcome of each call the
script makes, in the order it makes them.  Python exceptions are modelled
with `Except`; `sys.exit(1)` becomes exit code 1 in the result record.
-/

/-- The argparse namespace of the script (`__main__`, lines 166-174):
`--ip`, `--port` (default 990), `--user`, `--password`, `--download_dir`,
`--ftp_timelapse_folder`, `--delete_files_from_sd_card_after_download`. -/
structure Args where
  ip : String
  port : Nat
  user : String
  password : String
  download_dir : String
  ftp_timelapse_folder : String
  delete_files_from_sd_card_after_download : Bool
  deriving DecidableEq, Repr

/-- An exception raised by an FTP call: `ftplib.error_perm` carries the
server's message text (the script string-matches it at line 149); every
other exception type is `otherError`. -/
inductive FtpError where
  | permError (msg : String)
  | otherError (msg : String)
  deriving DecidableEq, Repr

/-- Outcomes of the local filesystem calls the script makes:
`os.path.exists` / `os.makedirs` on the download directory (lines 83-84),
`os.listdir` (line 86), and `open(..., 'wb')` per file (line 120). -/
structure FS where
  dirExists : Bool
  files : List String
  mkdirOk : Bool
  listdirOk : Bool
  openOk : String → Bool

/-- Outcomes of the FTP calls, in the order the script performs them:
connect/login/prot_p (lines 90-92), root `nlst()` (line 99), `cwd` (line
100), `nlst()` inside the timelapse folder (line 103), `size` (line 111),
`retrbinary` (line 133) and `delete` (line 137). -/
structure Server where
  connectErr : Option String
  rootList : Except FtpError (List String)
  cwdErr : Option FtpError
  dirList : Except FtpError (List String)
  size : String → Except FtpError Nat
  retr : String → Except FtpError Unit
  deleteFile : String → Except FtpError Unit

/-- The log lines the script emits, reduced to tags (with the data the
claims talk about). -/
inductive LogEvent where
  | connecting (user ip : String) (port : Nat)
  | connected
  | connectionFailed
  | lookingForFiles
  | foundFiles (n : Nat)
  | skipZero (f : String)
  | startDownload (idx total : Nat) (f : String)
  | deleteFailed (f : String)
  | downloadFailed (f : String)
  | noNewFiles
  | noFilesInDir
  | folderNotFound
  | programFailed
  deriving DecidableEq, Repr

/-- Mutable state threaded through the download loop: the set of file
names present in the download directory, the files fully retrieved so far,
the remote files deleted so far, and the log. -/
structure LoopState where
  localFiles : List String
  downloaded : List String
  deletedRemote : List String
  log : List LogEvent
  deriving DecidableEq, Repr

/-- Result of one run of `ftp_download`: process exit code (0 = the
function returned normally), final download-directory contents, the files
fully downloaded, the remote files deleted, the log, the host/port pair
actually passed to `connect` (line 90), and whether the root and
timelapse-folder listings were ever requested. -/
structure RunResult where
  exitCode : Nat
  localFiles : List String
  downloaded : List String
  deletedRemote : List String
  log : List LogEvent
  connectCall : Option (String × Nat)
  rootListed : Bool
  dirListed : Bool
  deriving DecidableEq, Repr

/-- `os.listdir(args.download_dir)` as seen at line 86: if the directory
did not exist it was just created empty by `os.makedirs` (line 84). -/
def listLocal (fs : FS) : List String :=
  if fs.dirExists then fs.files else []

/-- Python's `str.endswith(pat)` as a suffix test on the character
sequence (stated via `List.isSuffixOf` so that it evaluates inside the
kernel; `String.endsWith` is byte-level and does not). -/
def strEndsWith (s pat : String) : Bool :=
  List.isSuffixOf pat.toList s.toList

/-- Lines 86 and 103-104: `downloaded_files` is the local names ending in
`.avi`; the files to fetch are the remote names ending in `.avi` that are
not in `downloaded_files`, in server-reported order. -/
def downloadSet (localFiles remoteFiles : List String) : List String :=
  let downloaded_files := localFiles.filter (fun f => strEndsWith f ".avi")
  (remoteFiles.filter (fun f => strEndsWith f ".avi")).filter
    (fun f => !(downloaded_files.contains f))

/-- `open(path, 'wb')` on the name set: creates the file if absent
(truncation of an existing file does not change the name set). -/
def addLocalFile (l : List String) (f : String) : List String :=
  if l.contains f then l else l ++ [f]

/-- Lines 142-143: `if os.path.exists(p): os.remove(p)` on the name set. -/
def removeLocalFile (l : List String) (f : String) : List String :=
  l.filter (fun g => !(g == f))

/-- `enumerate(ftp_timelapse_files, start=1)` (line 110). -/
def enumFrom1 : Nat → List String → List (Nat × String)
  | _, [] => []
  | i, f :: rest => (i, f) :: enumFrom1 (i + 1) rest

/-- The body of the `for` loop (lines 110-145) for one file `f` at
position `idx`.  `Except.error (e, st)` means an exception escaped the
loop body (only `ftp_client.size` at line 111 can do that: every other
failure is caught by the handlers at lines 138 and 141). -/
def processFile (args : Args) (srv : Server) (fs : FS) (total : Nat)
    (st : LoopState) (idx : Nat) (f : String) :
    Except (FtpError × LoopState) LoopState :=
  match srv.size f with
  | .error e => .error (e, st)
  | .ok filesize =>
    if filesize == 0 then
      .ok { st with log := st.log ++ [LogEvent.skipZero f] }
    else
      let st1 : LoopState :=
        { st with log := st.log ++ [LogEvent.startDownload idx total f] }
      let attempt : Except LoopState LoopState :=
        if fs.openOk f then
          let st2 : LoopState :=
            { st1 with localFiles := addLocalFile st1.localFiles f }
          match srv.retr f with
          | .error _ => .error st2
          | .ok _ =>
            let st3 : LoopState := { st2 with downloaded := st2.downloaded ++ [f] }
            if args.delete_files_from_sd_card_after_download then
              match srv.deleteFile f with
              | .error _ => .ok { st3 with log := st3.log ++ [LogEvent.deleteFailed f] }
              | .ok _ => .ok { st3 with deletedRemote := st3.deletedRemote ++ [f] }
            else
              .ok st3
        else
          .error st1
      match attempt with
      | .ok st4 => .ok st4
      | .error stExn =>
        .ok { stExn with
              localFiles := removeLocalFile stExn.localFiles f,
              log := stExn.log ++ [LogEvent.downloadFailed f] }

/-- The whole `for` loop over the enumerated download set. -/
def runLoop (args : Args) (srv : Server) (fs : FS) (total : Nat) :
    List (Nat × String) → LoopState → Except (FtpError × LoopState) LoopState
  | [], st => .ok st
  | (idx, f) :: rest, st =>
    match processFile args srv fs total st idx f with
    | .error e => .error e
    | .ok st2 => runLoop args srv fs total rest st2

/-- Lines 101-152: the inner `try` around the timelapse-folder listing and
the download loop, together with the `except ftplib.error_perm` handler at
line 148 (non-fatal only for the exact message `550 No files found`) and
the outer `except Exception` at line 156 (fatal, exit 1). -/
def timelapseListing (args : Args) (srv : Server) (fs : FS)
    (local0 : List String) (log3 : List LogEvent) : RunResult :=
  let cc : Option (String × Nat) := some (args.ip, 990)
  match srv.dirList with
  | .error e =>
    if e = FtpError.permError "550 No files found" then
      { exitCode := 0, localFiles := local0, downloaded := [], deletedRemote := [],
        log := log3 ++ [LogEvent.noFilesInDir], connectCall := cc,
        rootListed := true, dirListed := true }
    else
      { exitCode := 1, localFiles := local0, downloaded := [], deletedRemote := [],
        log := log3 ++ [LogEvent.programFailed], connectCall := cc,
        rootListed := true, dirListed := true }
  | .ok entries =>
    let files := downloadSet local0 entries
    if files.isEmpty then
      { exitCode := 0, localFiles := local0, downloaded := [], deletedRemote := [],
        log := log3 ++ [LogEvent.noNewFiles], connectCall := cc,
        rootListed := true, dirListed := true }
    else
      let total := files.length
      let st0 : LoopState :=
        { localFiles := local0, downloaded := [], deletedRemote := [],
          log := log3 ++ [LogEvent.foundFiles total] }
      match runLoop args srv fs total (enumFrom1 1 files) st0 with
      | .ok st =>
        { exitCode := 0, localFiles := st.localFiles, downloaded := st.downloaded,
          deletedRemote := st.deletedRemote, log := st.log, connectCall := cc,
          rootListed := true, dirListed := true }
      | .error (e, st) =>
        if e = FtpError.permError "550 No files found" then
          { exitCode := 0, localFiles := st.localFiles, downloaded := st.downloaded,
            deletedRemote := st.deletedRemote,
            log := st.log ++ [LogEvent.noFilesInDir], connectCall := cc,
            rootListed := true, dirListed := true }
        else
          { exitCode := 1, localFiles := st.localFiles, downloaded := st.downloaded,
            deletedRemote := st.deletedRemote,
            log := st.log ++ [LogEvent.programFailed], connectCall := cc,
            rootListed := true, dirListed := true }

/-- Lines 98-158: root listing, folder-membership check (line 99), `cwd`
(line 100) and the timelapse listing; `sys.exit(1)` at line 155 when the
folder is absent (`SystemExit` is not caught by `except Exception`). -/
def afterConnect (args : Args) (srv : Server) (fs : FS)
    (local0 : List String) (log2 : List LogEvent) : RunResult :=
  let cc : Option (String × Nat) := some (args.ip, 990)
  match srv.rootList with
  | .error _ =>
    { exitCode := 1, localFiles := local0, downloaded := [], deletedRemote := [],
      log := log2 ++ [LogEvent.programFailed], connectCall := cc,
      rootListed := true, dirListed := false }
  | .ok root =>
    if args.ftp_timelapse_folder ∈ root then
      match srv.cwdErr with
      | some _ =>
        { exitCode := 1, localFiles := local0, downloaded := [], deletedRemote := [],
          log := log2 ++ [LogEvent.programFailed], connectCall := cc,
          rootListed := true, dirListed := false }
      | none =>
        timelapseListing args srv fs local0 (log2 ++ [LogEvent.lookingForFiles])
    else
      { exitCode := 1, localFiles := local0, downloaded := [], deletedRemote := [],
        log := log2 ++ [LogEvent.folderNotFound], connectCall := cc,
        rootListed := true, dirListed := false }

/-- `ftp_download` (lines 81-158).  The first `try` (lines 82-96) covers
directory creation, the local listing and the connection: any exception
there is logged as `FTP connection failed` and the process exits 1.  Note
line 90 passes the literal `990` as the port, not `args.port`. -/
def ftp_download (args : Args) (srv : Server) (fs : FS) : RunResult :=
  if !fs.dirExists && !fs.mkdirOk then
    { exitCode := 1, localFiles := [], downloaded := [], deletedRemote := [],
      log := [LogEvent.connectionFailed], connectCall := none,
      rootListed := false, dirListed := false }
  else
    let local0 := listLocal fs
    if !fs.listdirOk then
      { exitCode := 1, localFiles := local0, downloaded := [], deletedRemote := [],
        log := [LogEvent.connectionFailed], connectCall := none,
        rootListed := false, dirListed := false }
    else
      let log1 := [LogEvent.connecting args.user args.ip args.port]
      match srv.connectErr with
      | some _ =>
        { exitCode := 1, localFiles := local0, downloaded := [], deletedRemote := [],
          log := log1 ++ [LogEvent.connectionFailed],
          connectCall := some (args.ip, 990),
          rootListed := false, dirListed := false }
      | none =>
        afterConnect args srv fs local0 (log1 ++ [LogEvent.connected])

/-! ## Helper lemmas -/

theorem contains_filter_avi (D : List String) (f : String)
    (h : strEndsWith f ".avi" = true) :
    (D.filter (fun g => strEndsWith g ".avi")).contains f = D.contains f := by
  have h1 : f ∈ D.filter (fun g => strEndsWith g ".avi") ↔ f ∈ D := by
    simp [List.mem_filter, h]
  show (D.filter (fun g => strEndsWith g ".avi")).elem f = D.elem f
  rw [List.elem_eq_mem, List.elem_eq_mem, decide_eq_decide]
  exact h1

theorem downloadSet_eq_filter (D R : List String) :
    downloadSet D R =
      R.filter (fun f => strEndsWith f ".avi" && !(D.contains f)) := by
  rw [downloadSet, List.filter_filter]
  apply List.filter_congr
  intro f _
  cases hf : strEndsWith f ".avi" with
  | false => simp [hf]
  | true => simp [hf, contains_filter_avi D f hf]

/-- C1: the computed download set (lines 86, 103-104) is exactly the
remote names ending in `.avi` whose name is not among the local
filenames, kept in server-reported order (`List.filter` preserves order);
consequently every file in the set is absent from the local directory, so
a file already present locally is never downloaded again. -/
theorem c1_download_set_spec (D R : List String) :
    downloadSet D R =
      R.filter (fun f => strEndsWith f ".avi" && !(D.contains f)) ∧
    ∀ f ∈ downloadSet D R, ¬ f ∈ D := by
  refine ⟨downloadSet_eq_filter D R, ?_⟩
  intro f hf
  rw [downloadSet_eq_filter] at hf
  have hp := List.of_mem_filter hf
  have h2 : (D.contains f) = false := by
    cases hc : D.contains f
    · rfl
    · rw [hc] at hp
      simp at hp
  intro hmem
  rw [show D.contains f = D.elem f from rfl, List.elem_eq_mem] at h2
  simp [hmem] at h2

theorem not_mem_removeLocalFile (l : List String) (f : String) :
    ¬ f ∈ removeLocalFile l f := by
  simp [removeLocalFile]

theorem mem_addLocalFile (l : List String) (f : String) :
    f ∈ addLocalFile l f := by
  unfold addLocalFile
  by_cases h : l.contains f = true
  · rw [if_pos h]
    rw [show l.contains f = l.elem f from rfl, List.elem_eq_mem] at h
    exact of_decide_eq_true h
  · rw [if_neg h]
    simp

/-! ## Concrete fixtures used by witnesses -/

/-- A run configuration with the deletion flag enabled. -/
def exArgs : Args :=
  { ip := "192.168.1.50", port := 990, user := "bblp", password := "pw",
    download_dir := "/tl", ftp_timelapse_folder := "timelapse",
    delete_files_from_sd_card_after_download := true }

/-- A local filesystem where the download directory exists and holds one
previously downloaded video. -/
def exFS : FS :=
  { dirExists := true, files := ["old.avi", "note.txt"], mkdirOk := true,
    listdirOk := true, openOk := fun _ => true }

/-- A server where `zero.avi` reports size 0, `bad.avi` fails during
streaming, and deleting `new.avi` after download fails. -/
def exSrv : Server :=
  { connectErr := none,
    rootList := Except.ok ["timelapse", "model"],
    cwdErr := none,
    dirList := Except.ok ["old.avi", "zero.avi", "new.avi", "bad.avi", "doc.txt"],
    size := fun f =>
      if f == "zero.avi" then Except.ok 0
      else if f == "new.avi" then Except.ok 2048
      else Except.ok 1024,
    retr := fun f =>
      if f == "bad.avi" then Except.error (FtpError.otherError "connection reset")
      else Except.ok (),
    deleteFile := fun f =>
      if f == "new.avi" then Except.error (FtpError.permError "550 busy")
      else Except.ok () }

/-- Loop state as it stands when the loop of the `exFS`/`exSrv` run
starts. -/
def exSt : LoopState :=
  { localFiles := ["old.avi", "note.txt"], downloaded := [], deletedRemote := [],
    log := [] }

/-- C4: a remote file whose reported size is 0 is skipped: no local file
is created or written (the state's directory contents are unchanged), a
skip notice is logged, the loop continues (`Except.ok`), and the entry is
not counted as downloaded (the `downloaded` list is unchanged). -/
theorem c4_zero_size_skipped (args : Args) (srv : Server) (fs : FS)
    (total : Nat) (st : LoopState) (idx : Nat) (f : String)
    (h : srv.size f = Except.ok 0) :
    processFile args srv fs total st idx f =
      Except.ok { st with log := st.log ++ [LogEvent.skipZero f] } := by
  unfold processFile
  rw [h]
  rfl

/-- Witness for C4 at a concrete input: `zero.avi` reports size 0. -/
theorem c4_zero_size_skipped_witness :
    exSrv.size "zero.avi" = Except.ok 0 ∧
    processFile exArgs exSrv exFS 3 exSt 1 "zero.avi" =
      Except.ok { exSt with log := exSt.log ++ [LogEvent.skipZero "zero.avi"] } :=
  ⟨by rfl, c4_zero_size_skipped exArgs exSrv exFS 3 exSt 1 "zero.avi" (by rfl)⟩

/-- C5: when streaming fails partway (the file was opened, `retrbinary`
raises), the loop body still returns `Except.ok`, no file named `f`
remains in the download directory (the partial file is removed), the file
is not counted as downloaded, and the failure is logged. -/
theorem c5_partial_file_removed (args : Args) (srv : Server) (fs : FS)
    (total : Nat) (st : LoopState) (idx : Nat) (f : String) (n : Nat) (e : FtpError)
    (hsize : srv.size f = Except.ok n) (hn : (n == 0) = false)
    (hopen : fs.openOk f = true) (hretr : srv.retr f = Except.error e) :
    ∃ st2, processFile args srv fs total st idx f = Except.ok st2 ∧
      ¬ f ∈ st2.localFiles ∧
      st2.downloaded = st.downloaded ∧
      LogEvent.downloadFailed f ∈ st2.log := by
  simp only [processFile, hsize, hn, hopen, hretr, if_true, if_false, Bool.false_eq_true,
    if_true_left, ite_true, ite_false]
  exact ⟨_, rfl, not_mem_removeLocalFile _ f, rfl, by simp⟩

/-- Witness for C5 at a concrete input: streaming `bad.avi` fails. -/
theorem c5_partial_file_removed_witness :
    exSrv.size "bad.avi" = Except.ok 1024 ∧ ((1024 : Nat) == 0) = false ∧
    exFS.openOk "bad.avi" = true ∧
    exSrv.retr "bad.avi" = Except.error (FtpError.otherError "connection reset") ∧
    ∃ st2, processFile exArgs exSrv exFS 3 exSt 3 "bad.avi" = Except.ok st2 ∧
      ¬ "bad.avi" ∈ st2.localFiles ∧
      st2.downloaded = exSt.downloaded ∧
      LogEvent.downloadFailed "bad.avi" ∈ st2.log :=
  ⟨by rfl, by rfl, by rfl, by rfl,
    c5_partial_file_removed exArgs exSrv exFS 3 exSt 3 "bad.avi" 1024
      (FtpError.otherError "connection reset") (by rfl) (by rfl) (by rfl) (by rfl)⟩

/-- C6: when the delete-after-download option is enabled and the remote
deletion fails after a successful transfer, the loop body returns
`Except.ok` (the run continues), the local copy is still present, the file
is still counted as downloaded, and the deletion error is logged. -/
theorem c6_delete_failure_keeps_local (args : Args) (srv : Server) (fs : FS)
    (total : Nat) (st : LoopState) (idx : Nat) (f : String) (n : Nat) (e : FtpError)
    (hsize : srv.size f = Except.ok n) (hn : (n == 0) = false)
    (hopen : fs.openOk f = true) (hretr : srv.retr f = Except.ok ())
    (hflag : args.delete_files_from_sd_card_after_download = true)
    (hdel : srv.deleteFile f = Except.error e) :
    ∃ st2, processFile args srv fs total st idx f = Except.ok st2 ∧
      f ∈ st2.localFiles ∧
      st2.downloaded = st.downloaded ++ [f] ∧
      LogEvent.deleteFailed f ∈ st2.log := by
  simp only [processFile, hsize, hn, hopen, hretr, hflag, hdel, if_true, if_false,
    Bool.false_eq_true, ite_true, ite_false]
  exact ⟨_, rfl, mem_addLocalFile _ f, rfl, by simp⟩

/-- Witness for C6 at a concrete input: deleting `new.avi` fails after a
successful download. -/
theorem c6_delete_failure_keeps_local_witness :
    exSrv.size "new.avi" = Except.ok 2048 ∧ ((2048 : Nat) == 0) = false ∧
    exFS.openOk "new.avi" = true ∧ exSrv.retr "new.avi" = Except.ok () ∧
    exArgs.delete_files_from_sd_card_after_download = true ∧
    exSrv.deleteFile "new.avi" = Except.error (FtpError.permError "550 busy") ∧
    ∃ st2, processFile exArgs exSrv exFS 3 exSt 2 "new.avi" = Except.ok st2 ∧
      "new.avi" ∈ st2.localFiles ∧
      st2.downloaded = exSt.downloaded ++ ["new.avi"] ∧
      LogEvent.deleteFailed "new.avi" ∈ st2.log :=
  ⟨by rfl, by rfl, by rfl, by rfl, by rfl, by rfl,
    c6_delete_failure_keeps_local exArgs exSrv exFS 3 exSt 2 "new.avi" 2048
      (FtpError.permError "550 busy") (by rfl) (by rfl) (by rfl) (by rfl) (by rfl) (by rfl)⟩

theorem processFile_ok_of_size_ok (args : Args) (srv : Server) (fs : FS)
    (total : Nat) (st : LoopState) (idx : Nat) (f : String) (n : Nat)
    (h : srv.size f = Except.ok n) :
    ∃ st2, processFile args srv fs total st idx f = Except.ok st2 := by
  unfold processFile
  rw [h]
  dsimp only
  by_cases h0 : (n == 0) = true
  · rw [if_pos h0]
    exact ⟨_, rfl⟩
  · rw [if_neg h0]
    cases hopen : fs.openOk f
    · simp [hopen]
    · cases hretr : srv.retr f
      · simp [hopen, hretr]
      · cases hflag : args.delete_files_from_sd_card_after_download
        · simp [hopen, hretr, hflag]
        · cases hdel : srv.deleteFile f
          · simp [hopen, hretr, hflag, hdel]
          · simp [hopen, hretr, hflag, hdel]

/-- C2 (amended): a failure while *streaming* one file (or while deleting
it afterwards) never aborts the loop: as long as every `size` query
succeeds, the whole download loop returns `Except.ok`, whatever the
outcomes of `open`, `retrbinary` and `delete` are.  (A failure while
*sizing* is the exception that escapes the loop: see the counterexample
theorem for the original claim.) -/
theorem c2_streaming_failures_nonfatal (args : Args) (srv : Server) (fs : FS)
    (total : Nat) (l : List (Nat × String)) (st : LoopState)
    (h : ∀ p ∈ l, ∃ n, srv.size p.2 = Except.ok n) :
    ∃ st2, runLoop args srv fs total l st = Except.ok st2 := by
  induction l generalizing st with
  | nil => exact ⟨st, rfl⟩
  | cons p rest ih =>
    obtain ⟨i, f⟩ := p
    obtain ⟨n, hn⟩ := h (i, f) (List.mem_cons_self _ rest)
    obtain ⟨st1, hst1⟩ := processFile_ok_of_size_ok args srv fs total st i f n hn
    obtain ⟨st2, hst2⟩ := ih st1 (fun q hq => h q (List.mem_cons_of_mem _ hq))
    refine ⟨st2, ?_⟩
    simp only [runLoop, hst1]
    exact hst2

/-- Witness for the amended C2 at a concrete input: `bad.avi` fails while
streaming and deleting `new.avi` fails, yet the loop completes. -/
theorem c2_streaming_failures_nonfatal_witness :
    (∀ p ∈ [(1, "bad.avi"), (2, "new.avi")], ∃ n, exSrv.size p.2 = Except.ok n) ∧
    ∃ st2, runLoop exArgs exSrv exFS 2 [(1, "bad.avi"), (2, "new.avi")] exSt =
      Except.ok st2 := by
  have h : ∀ p ∈ [((1 : Nat), "bad.avi"), (2, "new.avi")],
      ∃ n, exSrv.size p.2 = Except.ok n := by
    intro p hp
    simp only [List.mem_cons, List.not_mem_nil, or_false] at hp
    rcases hp with h1 | h2
    · subst h1; exact ⟨1024, rfl⟩
    · subst h2; exact ⟨2048, rfl⟩
  exact ⟨h, c2_streaming_failures_nonfatal exArgs exSrv exFS 2 _ exSt h⟩

/-- A server whose `size` call fails for `a.avi` with a generic (non
`error_perm`) exception; everything else succeeds. -/
def sizeFailSrv : Server :=
  { connectErr := none,
    rootList := Except.ok ["timelapse"],
    cwdErr := none,
    dirList := Except.ok ["a.avi", "b.avi"],
    size := fun f =>
      if f == "a.avi" then Except.error (FtpError.otherError "timed out")
      else Except.ok 100,
    retr := fun _ => Except.ok (),
    deleteFile := fun _ => Except.ok () }

/-- Counterexample to C2 as stated: `ftp_client.size(f)` (line 111) sits
outside the per-file `try` (line 118), so when sizing `a.avi` raises, the
run terminates with exit code 1 and the remaining file `b.avi` is never
downloaded — a single file's sizing failure does abort the process. -/
theorem c2_sizing_failure_is_fatal :
    (ftp_download exArgs sizeFailSrv exFS).exitCode = 1 ∧
    (ftp_download exArgs sizeFailSrv exFS).downloaded = [] ∧
    LogEvent.programFailed ∈ (ftp_download exArgs sizeFailSrv exFS).log := by
  refine ⟨by decide, by decide, by decide⟩

theorem timelapseListing_connectCall (args : Args) (srv : Server) (fs : FS)
    (local0 : List String) (log3 : List LogEvent) :
    (timelapseListing args srv fs local0 log3).connectCall = some (args.ip, 990) := by
  unfold timelapseListing
  dsimp only
  repeat' split
  all_goals rfl

theorem afterConnect_connectCall (args : Args) (srv : Server) (fs : FS)
    (local0 : List String) (log2 : List LogEvent) :
    (afterConnect args srv fs local0 log2).connectCall = some (args.ip, 990) := by
  unfold afterConnect
  repeat' split
  all_goals first
  | rfl
  | exact timelapseListing_connectCall args srv fs local0 (log2 ++ [LogEvent.lookingForFiles])

/-- C3 (the code, not the claim): whenever `ftp_client.connect` is reached
(the local-directory phase did not raise), it is called with host
`args.ip` and the literal port `990` (line 90), regardless of the value of
the `--port` flag — the user-supplied port is parsed and logged but never
used. -/
theorem c3_port_hardcoded (args : Args) (srv : Server) (fs : FS)
    (h1 : fs.dirExists = true) (h2 : fs.listdirOk = true) :
    (ftp_download args srv fs).connectCall = some (args.ip, 990) := by
  unfold ftp_download
  rw [h1, h2]
  cases hc : srv.connectErr with
  | some e => simp [hc]
  | none => simp [hc, afterConnect_connectCall]

/-- The run configuration `exArgs` with `--port 2121`. -/
def portArgs : Args := { exArgs with port := 2121 }

/-- Witness for C3 at a concrete input: with `--port 2121` on the command
line the control connection is still opened to port 990. -/
theorem c3_port_hardcoded_witness :
    exFS.dirExists = true ∧ exFS.listdirOk = true ∧ portArgs.port = 2121 ∧
    (ftp_download portArgs exSrv exFS).connectCall = some ("192.168.1.50", 990) :=
  ⟨rfl, rfl, rfl, c3_port_hardcoded portArgs exSrv exFS rfl rfl⟩

/-- C7: if the connection phase (connect/login/prot_p, lines 90-92)
raises, the error is logged and the process exits with code 1 before any
remote listing (root or timelapse folder) is requested. -/
theorem c7_connection_failure_fatal (args : Args) (srv : Server) (fs : FS) (e : String)
    (h1 : fs.dirExists = true) (h2 : fs.listdirOk = true)
    (hc : srv.connectErr = some e) :
    (ftp_download args srv fs).exitCode = 1 ∧
    (ftp_download args srv fs).rootListed = false ∧
    (ftp_download args srv fs).dirListed = false ∧
    LogEvent.connectionFailed ∈ (ftp_download args srv fs).log := by
  unfold ftp_download
  rw [h1, h2, hc]
  exact ⟨rfl, rfl, rfl, by simp⟩

/-- The server `exSrv` with a failing login. -/
def connFailSrv : Server := { exSrv with connectErr := some "530 Login incorrect" }

/-- Witness for C7 at a concrete input. -/
theorem c7_connection_failure_fatal_witness :
    exFS.dirExists = true ∧ exFS.listdirOk = true ∧
    connFailSrv.connectErr = some "530 Login incorrect" ∧
    ((ftp_download exArgs connFailSrv exFS).exitCode = 1 ∧
     (ftp_download exArgs connFailSrv exFS).rootListed = false ∧
     (ftp_download exArgs connFailSrv exFS).dirListed = false ∧
     LogEvent.connectionFailed ∈ (ftp_download exArgs connFailSrv exFS).log) :=
  ⟨rfl, rfl, rfl,
    c7_connection_failure_fatal exArgs connFailSrv exFS "530 Login incorrect" rfl rfl rfl⟩

/-- C8: if the configured timelapse folder is not among the root-level
listing entries, the process exits with code 1, the contents of the
download directory are unchanged (no file written or removed, nothing
downloaded), and the absence is logged. -/
theorem c8_folder_missing_exits_unchanged (args : Args) (srv : Server) (fs : FS)
    (root : List String)
    (h1 : fs.dirExists = true) (h2 : fs.listdirOk = true)
    (hc : srv.connectErr = none)
    (hroot : srv.rootList = Except.ok root)
    (hmem : ¬ args.ftp_timelapse_folder ∈ root) :
    (ftp_download args srv fs).exitCode = 1 ∧
    (ftp_download args srv fs).localFiles = fs.files ∧
    (ftp_download args srv fs).downloaded = [] ∧
    LogEvent.folderNotFound ∈ (ftp_download args srv fs).log := by
  unfold ftp_download afterConnect listLocal
  rw [h1, h2, hc, hroot]
  dsimp only
  rw [if_neg hmem]
  exact ⟨rfl, rfl, rfl, by simp⟩

/-- The server `exSrv` with a root listing that has no `timelapse`
entry. -/
def noFolderSrv : Server := { exSrv with rootList := Except.ok ["cache", "ipcam"] }

/-- Witness for C8 at a concrete input. -/
theorem c8_folder_missing_exits_unchanged_witness :
    exFS.dirExists = true ∧ exFS.listdirOk = true ∧
    noFolderSrv.connectErr = none ∧
    noFolderSrv.rootList = Except.ok ["cache", "ipcam"] ∧
    (¬ exArgs.ftp_timelapse_folder ∈ ["cache", "ipcam"]) ∧
    ((ftp_download exArgs noFolderSrv exFS).exitCode = 1 ∧
     (ftp_download exArgs noFolderSrv exFS).localFiles = exFS.files ∧
     (ftp_download exArgs noFolderSrv exFS).downloaded = [] ∧
     LogEvent.folderNotFound ∈ (ftp_download exArgs noFolderSrv exFS).log) :=
  ⟨rfl, rfl, rfl, rfl, by decide,
    c8_folder_missing_exits_unchanged exArgs noFolderSrv exFS ["cache", "ipcam"]
      rfl rfl rfl rfl (by decide)⟩

/-- C9: a listing error inside the timelapse folder is non-fatal exactly
when it is an `ftplib.error_perm` whose text is `550 No files found`
(logged, exit 0); any other listing error is fatal (exit 1, logged as a
program failure). -/
theorem c9_listing_error_policy (args : Args) (srv : Server) (fs : FS)
    (root : List String) (e : FtpError)
    (h1 : fs.dirExists = true) (h2 : fs.listdirOk = true)
    (hc : srv.connectErr = none)
    (hroot : srv.rootList = Except.ok root)
    (hmem : args.ftp_timelapse_folder ∈ root)
    (hcwd : srv.cwdErr = none)
    (hdir : srv.dirList = Except.error e) :
    (e = FtpError.permError "550 No files found" →
      (ftp_download args srv fs).exitCode = 0 ∧
      LogEvent.noFilesInDir ∈ (ftp_download args srv fs).log) ∧
    (e ≠ FtpError.permError "550 No files found" →
      (ftp_download args srv fs).exitCode = 1 ∧
      LogEvent.programFailed ∈ (ftp_download args srv fs).log) := by
  unfold ftp_download afterConnect timelapseListing
  rw [h1, h2, hc, hroot]
  dsimp only
  rw [if_pos hmem, hcwd, hdir]
  dsimp only
  constructor
  · intro he
    rw [if_pos he]
    exact ⟨rfl, by simp⟩
  · intro he
    rw [if_neg he]
    exact ⟨rfl, by simp⟩

/-- The server `exSrv` answering the timelapse listing with the
permission-style `550 No files found` error. -/
def emptyDirSrv : Server :=
  { exSrv with dirList := Except.error (FtpError.permError "550 No files found") }

/-- Witness for C9 at a concrete input. -/
theorem c9_listing_error_policy_witness :
    exFS.dirExists = true ∧ exFS.listdirOk = true ∧
    emptyDirSrv.connectErr = none ∧
    emptyDirSrv.rootList = Except.ok ["timelapse", "model"] ∧
    exArgs.ftp_timelapse_folder ∈ ["timelapse", "model"] ∧
    emptyDirSrv.cwdErr = none ∧
    emptyDirSrv.dirList = Except.error (FtpError.permError "550 No files found") ∧
    ((FtpError.permError "550 No files found" = FtpError.permError "550 No files found" →
      (ftp_download exArgs emptyDirSrv exFS).exitCode = 0 ∧
      LogEvent.noFilesInDir ∈ (ftp_download exArgs emptyDirSrv exFS).log) ∧
     (FtpError.permError "550 No files found" ≠ FtpError.permError "550 No files found" →
      (ftp_download exArgs emptyDirSrv exFS).exitCode = 1 ∧
      LogEvent.programFailed ∈ (ftp_download exArgs emptyDirSrv exFS).log)) :=
  ⟨rfl, rfl, rfl, rfl, by decide, rfl, rfl,
    c9_listing_error_policy exArgs emptyDirSrv exFS ["timelapse", "model"]
      (FtpError.permError "550 No files found") rfl rfl rfl rfl (by decide) rfl rfl⟩

/-- C10: the download directory is created and the local listing is taken
before the printer is ever contacted: if `os.makedirs` or `os.listdir`
raises, the run logs the connection-failure message, exits with code 1,
never calls `connect` and never requests a remote listing. -/
theorem c10_local_phase_failure (args : Args) (srv : Server) (fs : FS)
    (h : (fs.dirExists = false ∧ fs.mkdirOk = false) ∨ fs.listdirOk = false) :
    (ftp_download args srv fs).exitCode = 1 ∧
    (ftp_download args srv fs).connectCall = none ∧
    (ftp_download args srv fs).rootListed = false ∧
    (ftp_download args srv fs).log = [LogEvent.connectionFailed] := by
  unfold ftp_download
  rcases h with ⟨hd, hm⟩ | hl
  · rw [hd, hm]
    exact ⟨rfl, rfl, rfl, rfl⟩
  · rw [hl]
    cases hd : fs.dirExists
    · cases hm : fs.mkdirOk
      · exact ⟨rfl, rfl, rfl, rfl⟩
      · exact ⟨rfl, rfl, rfl, rfl⟩
    · exact ⟨rfl, rfl, rfl, rfl⟩

/-- The filesystem `exFS` whose `os.listdir` call raises. -/
def badFS : FS := { exFS with listdirOk := false }

/-- Witness for C10 at a concrete input. -/
theorem c10_local_phase_failure_witness :
    ((badFS.dirExists = false ∧ badFS.mkdirOk = false) ∨ badFS.listdirOk = false) ∧
    ((ftp_download exArgs exSrv badFS).exitCode = 1 ∧
     (ftp_download exArgs exSrv badFS).connectCall = none ∧
     (ftp_download exArgs exSrv badFS).rootListed = false ∧
     (ftp_download exArgs exSrv badFS).log = [LogEvent.connectionFailed]) :=
  ⟨Or.inr rfl, c10_local_phase_failure exArgs exSrv badFS (Or.inr rfl)⟩
